import Mathlib

/-!
Verification development for the mogi-statechart library (C++ sources under
`src/` and `include/mogi_statechart/statechart.hpp`).  The C++ classes
`Transition`, `AbstractState`, `State` and `Chart` are shallowly embedded as
Lean structures; the mutable fields that the engine reads and writes during a
tick (the event-triggered flag, the active flags, the current state, the
pending transition, the process phase) become explicit state that each
operation threads through.  Guard predicates are user-supplied callbacks; a
call to `isSatisfied()` at a given moment yields a boolean, so in the
embedding a transition carries the list of boolean values its guards produce
at evaluation time.  User entry/do/exit/transition action callbacks and
registered state-change callbacks are opaque to the engine; the embedding of
`Chart::process` records their invocation order in an explicit trace.
-/

namespace Mogi

/-- The three phases of `Chart`'s internal process state machine,
`enum class ProcessState {Entry, Do, Exit}` in `statechart.hpp`. -/
inductive Phase where
  | Entry : Phase
  | Do : Phase
  | Exit : Phase
deriving DecidableEq, Repr

/-- Embedding of `class Transition` (statechart.hpp / transition.cpp).
`dst` models the weak reference `std::weak_ptr<AbstractState> dst` by the
destination state name: `none` when the weak pointer is expired, `some d`
when `dst.lock()` succeeds and yields the state named `d`.  `guards` is the
list of boolean values produced by the attached guard predicates when they
are evaluated.  `numEvents` is `events_.size()` and `eventTriggered` is the
atomic flag `eventTriggered_`. -/
structure Transition where
  dst : Option String
  guards : List Bool
  numEvents : Nat
  eventTriggered : Bool
deriving DecidableEq, Repr

/-- Source `Transition::guardsSatisfied` (transition.cpp, lines 49-58):
folds `shouldPerform &= g->isSatisfied()` over all guards starting from
`true`. -/
def Transition.guardsSatisfied (t : Transition) : Bool :=
  t.guards.foldl (fun acc g => acc && g) true

/-- Source `Transition::shouldPerform` (transition.cpp, lines 36-47).  With
no subscribed events it is `guardsSatisfied()` and the flag is untouched;
otherwise `eventTriggered_.exchange(false)` clears the flag unconditionally
and the old value decides whether the guards are even consulted.  The pair
returned is (return value, transition after the call). -/
def Transition.shouldPerform (t : Transition) : Bool × Transition :=
  if t.numEvents = 0 then
    (t.guardsSatisfied, t)
  else
    let wasTriggered := t.eventTriggered
    let t' : Transition := { t with eventTriggered := false }
    (if wasTriggered then t'.guardsSatisfied else false, t')

/-- Trace of the engine-invoked callbacks during one `Chart::process()`
call, in invocation order: the current state's `actionEntry()`, each
registered state-change callback (`callback->invoke(name)`), the current
state's `actionDo()` and `actionExit()`, the pending transition's
`action()`, and `setActive(b)` on the current state. -/
inductive TraceEv where
  | entryAction : String → TraceEv
  | stateChange : String → TraceEv
  | doAction : String → TraceEv
  | exitAction : String → TraceEv
  | transitionAction : TraceEv
  | setActive : String → Bool → TraceEv
deriving DecidableEq, Repr

/-- One entry of `Chart::states_`: the mapped `AbstractState` with its name
(the map key, equal to the state's label), its owned
`outgoingTransitions` set (here a list in iteration order) and its atomic
`is_active_` flag. -/
structure StateNode where
  name : String
  transitions : List Transition
  active : Bool
deriving DecidableEq, Repr

/-- Embedding of the runtime part of `class Chart` (statechart.hpp,
chart.cpp): the name-keyed state mapping `states_`, the atomic
`currentState` pointer (by name), the atomic `pendingTransition` pointer
(by value, `none` for null), the phase tag `processState`, and the number
of registered state-change callbacks (their bodies are user code; only how
many are invoked, and when, is engine behaviour). -/
structure Chart where
  states : List StateNode
  current : String
  pending : Option Transition
  phase : Phase
  numCallbacks : Nat
deriving DecidableEq, Repr

/-- Look up a state in `states_` by name (`states_.find(n)`). -/
def Chart.getState (c : Chart) (n : String) : Option StateNode :=
  c.states.find? (fun s => s.name = n)

/-- Source `Chart::hasState(n)`: `states_.find(n) != states_.end()`
(chart.cpp, lines 87-90). -/
def Chart.hasStateName (c : Chart) (n : String) : Bool :=
  c.states.any (fun s => s.name = n)

/-- Source `AbstractState::setActive(b)` applied to the state named `n` of
the chart's mapping. -/
def Chart.setActiveFlag (c : Chart) (n : String) (b : Bool) : Chart :=
  { c with states :=
      c.states.map (fun s => if s.name = n then { s with active := b } else s) }

/-- Overwrite the owned transition list of the state named `n` (the
in-place mutation of `outgoingTransitions` seen from the chart). -/
def Chart.setTransitions (c : Chart) (n : String) (ts : List Transition) : Chart :=
  { c with states :=
      c.states.map (fun s => if s.name = n then { s with transitions := ts } else s) }

/-- Source `AbstractState::purgeExpiredTransitions` (state.cpp, lines
26-41): erase every transition whose `dst` weak pointer is expired
(`dst == nullptr`) or whose destination is not in the container chart's
state mapping (`!container.lock()->hasState(dst)`); `c` is the container
chart. -/
def purgeTransitions (c : Chart) (ts : List Transition) : List Transition :=
  ts.filter (fun t =>
    match t.dst with
    | none => false
    | some d => c.hasStateName d)

/-- One step of the `std::for_each` loop in the Do branch of
`Chart::process` (chart.cpp, lines 218-226): call `shouldPerform()` on the
transition and remember it as the candidate when the call returns true. -/
def scanStep (acc : Option Transition × List Transition) (tt : Transition) :
    Option Transition × List Transition :=
  let r := tt.shouldPerform
  (if r.1 then some r.2 else acc.1, acc.2 ++ [r.2])

/-- The whole `std::for_each` over the current state's outgoing
transitions: returns the selected transition (the last one whose
`shouldPerform()` returned true, if any) together with the post-call
transition list. -/
def scanTransitions (ts : List Transition) : Option Transition × List Transition :=
  ts.foldl scanStep (none, [])

/-- The pending-transition swap at the start of the Entry branch of
`Chart::process` (chart.cpp, lines 176-183): if a transition is pending and
its destination weak pointer is alive, store the destination as current
state and clear the pending pointer; otherwise leave both untouched. -/
def Chart.entered (c : Chart) : Chart :=
  match c.pending with
  | some t =>
    match t.dst with
    | some d => { c with current := d, pending := none }
    | none => c
  | none => c

/-- Source `Chart::process` (chart.cpp, lines 172-240), returning the chart
after the call and the trace of callback invocations in order.  The `none`
branches of the current-state lookups are unreachable in the C++ code,
where `currentState` is a live pointer into the mapping; they return the
chart unchanged. -/
def Chart.process (c : Chart) : Chart × List TraceEv :=
  match c.phase with
  | Phase.Entry =>
    let c1 := c.entered
    match c1.getState c1.current with
    | none => (c1, [])
    | some _ =>
      let tr := TraceEv.entryAction c1.current ::
        (List.replicate c1.numCallbacks (TraceEv.stateChange c1.current) ++
          [TraceEv.setActive c1.current true])
      (({ c1 with phase := Phase.Do }).setActiveFlag c1.current true, tr)
  | Phase.Do =>
    match c.getState c.current with
    | none => (c, [])
    | some st =>
      let purged := purgeTransitions c st.transitions
      let scanned := scanTransitions purged
      let c1 := c.setTransitions c.current scanned.2
      match scanned.1 with
      | some t =>
        ({ c1 with pending := some t, phase := Phase.Exit },
          [TraceEv.doAction c.current])
      | none => (c1, [TraceEv.doAction c.current])
  | Phase.Exit =>
    match c.getState c.current with
    | none => (c, [])
    | some _ =>
      (({ c with phase := Phase.Entry }).setActiveFlag c.current false,
        [TraceEv.exitAction c.current, TraceEv.transitionAction,
          TraceEv.setActive c.current false])

/-- The `do process(); while (processState != Do)` loop of
`Chart::spinOnce` (chart.cpp, lines 137-150), with explicit fuel. -/
def Chart.spinOnceAux : Nat → Chart → Chart
  | 0, c => c
  | n + 1, c =>
    let c1 := (c.process).1
    if c1.phase = Phase.Do then c1 else Chart.spinOnceAux n c1

/-- Source `Chart::spinOnce`: one step ending at a stable Do phase.  Three
low-level `process()` calls always suffice: the Entry branch always sets
the phase to Do, the Exit branch always sets it to Entry, and the Do branch
either stays in Do or moves to Exit, so the longest loop is
Do → Exit → Entry → Do. -/
def Chart.spinOnce (c : Chart) : Chart :=
  Chart.spinOnceAux 3 c

/-- Source `Chart::getCurrentStateName` (statechart.hpp, lines 471-474). -/
def Chart.getCurrentStateName (c : Chart) : String :=
  c.current

/-- Source `Chart::reset` (chart.cpp, lines 163-170): stop any background
thread (no effect on the fields modelled here), deactivate the current
state, set the current state back to `"initial"`, the phase to Entry and
clear the pending transition. -/
def Chart.reset (c : Chart) : Chart :=
  let c1 := c.setActiveFlag c.current false
  { c1 with current := "initial", phase := Phase.Entry, pending := none }

/-- Source `Chart::actionEntry` (chart.cpp, lines 252-255): a chart used as
a nested state resets itself on every entry. -/
def Chart.actionEntry (c : Chart) : Chart :=
  c.reset

/-- Source `Chart::removeState` (chart.cpp, lines 67-80): refuse to remove
`"initial"` and `"final"`, otherwise erase the name from the mapping,
leaving transitions that targeted it to the lazy purge. -/
def Chart.removeState (c : Chart) (n : String) : Chart :=
  if n = "initial" ∨ n = "final" then c
  else { c with states := c.states.filter (fun s => s.name ≠ n) }

/-- Source `AbstractState::isActive` (state.cpp, lines 43-66).  A state is
described by its own `is_active_` flag `own` and the list `ancestors` of
the `is_active_` flags of its container, its container's container, and so
on up to the outermost chart.  No container: active by convention.
Container is the outermost chart: the state's own flag.  Deeper: the
state's own flag ANDed with the container's `isActive()`. -/
def isActive (own : Bool) : List Bool → Bool
  | [] => true
  | [_] => own
  | c :: rest => own && isActive c rest

/-- Modelled from the spec's words for comparison with `isActive`: "returns
true if this state has no container (root) — defined as active by
convention — otherwise returns own active flag AND container.isActive(),
recursing to the outermost chart". -/
def isActiveSpec (own : Bool) : List Bool → Bool
  | [] => true
  | c :: rest => own && isActiveSpec c rest

/-- One entry of the `states_` mapping viewed at the ownership level:
the key (the state's name), the identity of the mapped
`shared_ptr<AbstractState>` object, and whether that object is a leaf
`State` (true) or a nested `Chart` (false) — the distinction
`dynamic_pointer_cast<State>` observes in `Chart::createState`. -/
structure SEntry where
  name : String
  id : Nat
  isLeaf : Bool
deriving DecidableEq, Repr

/-- The `states_` mapping of a chart plus a supply of fresh object
identities for newly allocated states. -/
structure ChartMap where
  entries : List SEntry
  nextId : Nat
deriving DecidableEq, Repr

/-- Lookup `states_.find(n)` (first entry with key `n`). -/
def ChartMap.findEntry (m : ChartMap) (n : String) : Option SEntry :=
  m.entries.find? (fun e => e.name = n)

/-- Source `Chart::hasState(n)` at the `states_` level:
`states_.find(n) != states_.end()`. -/
def ChartMap.hasState (m : ChartMap) (n : String) : Bool :=
  (m.findEntry n).isSome

/-- Source `Chart::getStateCount()`: `states_.size()`. -/
def ChartMap.getStateCount (m : ChartMap) : Nat :=
  m.entries.length

/-- The mapping `Chart::createChart` builds before returning: `createState`
on `"initial"` and on `"final"` (chart.cpp, lines 24-36). -/
def initChartMap : ChartMap :=
  { entries := [SEntry.mk ("initial") 0 true, SEntry.mk ("final") 1 true],
    nextId := 2 }

/-- Source `Chart::createChart(n)` at the `states_` level: throws on an
empty name, otherwise allocates a chart already holding `"initial"` and
`"final"`. -/
def createChartM (n : String) : Except String ChartMap :=
  if n = "" then Except.error ("Chart name is empty")
  else Except.ok initChartMap

/-- Source `Chart::createState(n)` (chart.cpp, lines 43-59).  Empty name:
throw.  Name present: return `dynamic_pointer_cast<State>(existing)` — the
existing object when it is a leaf `State`, the null handle (`none`) when
the entry is a nested `Chart` — and leave the mapping untouched.  Fresh
name: allocate a new leaf state, register and return it. -/
def createStateM (m : ChartMap) (n : String) : Except String (Option Nat × ChartMap) :=
  if n = "" then Except.error ("State name is empty")
  else
    match m.findEntry n with
    | some e => Except.ok (if e.isLeaf then some e.id else none, m)
    | none =>
      Except.ok (some m.nextId,
        { entries := m.entries ++ [SEntry.mk n m.nextId true],
          nextId := m.nextId + 1 })

/-- Source `Chart::addSubchart(s)` at the `states_` level (chart.cpp,
lines 61-65): `states_.insert({name, chart})`, which adds the entry only
when the key is absent (`std::unordered_map::insert` never overwrites). -/
def addSubchartM (m : ChartMap) (n : String) : ChartMap :=
  match m.findEntry n with
  | some _ => m
  | none =>
    { entries := m.entries ++ [SEntry.mk n m.nextId false],
      nextId := m.nextId + 1 }

/-- Source `Chart::removeState(n)` at the `states_` level (chart.cpp,
lines 67-80): refuse `"initial"` and `"final"`, otherwise erase the
key. -/
def removeStateM (m : ChartMap) (n : String) : ChartMap :=
  if n = "initial" ∨ n = "final" then m
  else { m with entries := m.entries.filter (fun e => e.name ≠ n) }

/-- The public operations that can touch a chart's `states_` mapping after
creation. -/
inductive ChartOp where
  | createState : String → ChartOp
  | addSubchart : String → ChartOp
  | removeState : String → ChartOp
deriving DecidableEq, Repr

/-- Effect of one public operation on `states_` (a thrown configuration
error leaves the mapping untouched). -/
def applyOp (m : ChartMap) : ChartOp → ChartMap
  | ChartOp.createState n =>
    match createStateM m n with
    | Except.ok (_, m1) => m1
    | Except.error _ => m
  | ChartOp.addSubchart n => addSubchartM m n
  | ChartOp.removeState n => removeStateM m n

/-- A chart's `states_` after creation and an arbitrary operation
sequence. -/
def applyOps (ops : List ChartOp) : ChartMap :=
  ops.foldl applyOp initChartMap

/-- An `AbstractState` viewed at the containment level: its name, the
identity of its container chart (`container.lock()`; `none` when the weak
pointer is empty or expired), and its owned outgoing transition set. -/
structure ASt where
  name : String
  container : Option Nat
  transitions : List Transition
deriving DecidableEq, Repr

/-- The `Transition` object `AbstractState::createTransition` allocates: a
fresh transition to the given destination with no guards and no events. -/
def newTransition (dstName : String) : Transition :=
  { dst := some dstName, guards := [], numEvents := 0, eventTriggered := false }

/-- Source `AbstractState::createTransition(dst, action)` (statechart.hpp,
lines 304-320): throws when `container.lock() != dst->container.lock()`,
otherwise inserts the new transition into the source's owned set and
returns it.  The result is the updated source state. -/
def createTransition (src dst : ASt) : Except String ASt :=
  if src.container ≠ dst.container then
    Except.error (dst.name ++ " and " ++ src.name ++ " are not in the same chart")
  else
    Except.ok { src with transitions := src.transitions ++ [newTransition dst.name] }

/-- The containment effect of `Chart::addSubchart(s)` on the subchart
itself (chart.cpp, line 63): `s->container = getSharedPtr()`. -/
def addSubchartContainer (sub : ASt) (parent : Nat) : ASt :=
  { sub with container := some parent }

/-- The event-less, guard-less transition from `"initial"` to `"s1"` of
end-to-end scenario A. -/
def tInitS1 : Transition :=
  { dst := some ("s1"), guards := [], numEvents := 0, eventTriggered := false }

/-- The event-less, guard-less transition from `"s1"` to `"final"` of
end-to-end scenario A. -/
def tS1Final : Transition :=
  { dst := some ("final"), guards := [], numEvents := 0, eventTriggered := false }

/-- The chart of end-to-end scenario A, as `createChart` followed by
`createState("s1")` and the two `createTransition` calls build it: states
`"initial"`, `"final"`, `"s1"`, current state `"initial"`, no pending
transition, phase Entry, all active flags still false. -/
def chartA : Chart :=
  { states :=
      [{ name := "initial", transitions := [tInitS1], active := false },
       { name := "final", transitions := [], active := false },
       { name := "s1", transitions := [tS1Final], active := false }],
    current := "initial", pending := none, phase := Phase.Entry,
    numCallbacks := 0 }

/-- A subchart mid-run: its current state is `"s1"` with the active flag
set, its phase is Do. -/
def chartC5 : Chart :=
  { states :=
      [{ name := "initial", transitions := [tInitS1], active := false },
       { name := "final", transitions := [], active := false },
       { name := "s1", transitions := [tS1Final], active := true }],
    current := "s1", pending := none, phase := Phase.Do,
    numCallbacks := 0 }

/-- A qualifying event-less transition out of state `"a"`: one satisfied
guard, no events. -/
def tA1 : Transition :=
  { dst := some ("final"), guards := [true], numEvents := 0, eventTriggered := false }

/-- An event-gated transition out of state `"a"` whose event has been
triggered but whose guard fails: `shouldPerform()` must still be called on
it to clear the flag. -/
def tA2 : Transition :=
  { dst := some ("final"), guards := [false], numEvents := 1, eventTriggered := true }

/-- The state `"a"` owning `tA1` and `tA2`, in iteration order. -/
def stA : StateNode := { name := "a", transitions := [tA1, tA2], active := true }

/-- A chart sitting in the Do phase on state `"a"`. -/
def chartC2 : Chart :=
  { states :=
      [{ name := "initial", transitions := [], active := false },
       { name := "final", transitions := [], active := false },
       stA],
    current := "a", pending := none, phase := Phase.Do, numCallbacks := 0 }

/-- A source state in chart 0. -/
def srcC7 : ASt := { name := "a", container := some 0, transitions := [] }

/-- A state living in a different chart, chart 1. -/
def dstFar : ASt := { name := "b", container := some 1, transitions := [] }

/-- A root chart about to be added as a subchart (no container yet). -/
def subC7 : ASt := { name := "sub", container := none, transitions := [] }

/-- Two transitions targeting state `"x"` and one targeting `"y"`: the
first transition to `"x"`. -/
def tX1 : Transition :=
  { dst := some ("x"), guards := [], numEvents := 0, eventTriggered := false }

/-- Second transition to `"x"`, with a guard, to show the count drops by
exactly the number of transitions targeting the removed state. -/
def tX2 : Transition :=
  { dst := some ("x"), guards := [true], numEvents := 0, eventTriggered := false }

/-- A transition to the surviving state `"y"`. -/
def tY : Transition :=
  { dst := some ("y"), guards := [], numEvents := 0, eventTriggered := false }

/-- The owned transition set of state `"s"` before `removeState("x")`. -/
def tsC9 : List Transition := [tX1, tX2, tY]

/-- A chart whose state `"s"` holds `tsC9`; all destinations exist. -/
def chartC9 : Chart :=
  { states :=
      [{ name := "initial", transitions := [], active := false },
       { name := "final", transitions := [], active := false },
       { name := "x", transitions := [], active := false },
       { name := "y", transitions := [], active := false },
       { name := "s", transitions := tsC9, active := true }],
    current := "s", pending := none, phase := Phase.Do, numCallbacks := 0 }

/-- The scenario-A chart sitting in the Entry phase with one registered
state-change callback, for the C10 witness. -/
def chartC10 : Chart :=
  { states :=
      [{ name := "initial", transitions := [tInitS1], active := false },
       { name := "final", transitions := [], active := false },
       { name := "s1", transitions := [tS1Final], active := false }],
    current := "initial", pending := none, phase := Phase.Entry,
    numCallbacks := 1 }

lemma guardsSatisfied_clear_flag (t : Transition) :
    Transition.guardsSatisfied { t with eventTriggered := false } =
      t.guardsSatisfied := rfl

/-- C1: with zero subscribed events `shouldPerform()` is exactly
`guardsSatisfied()` with the transition unchanged; with at least one event
the call always clears the consumed flag, returns `false` irrespective of
the guards when the flag was clear, returns `guardsSatisfied()` when it was
set, and a second call without a fresh trigger returns `false`. -/
theorem C1_shouldPerform_consumes_flag (t : Transition) :
    (t.numEvents = 0 → t.shouldPerform = (t.guardsSatisfied, t)) ∧
    (t.numEvents ≠ 0 →
      (t.shouldPerform).2.eventTriggered = false ∧
      (t.eventTriggered = false → (t.shouldPerform).1 = false) ∧
      (t.eventTriggered = true → (t.shouldPerform).1 = t.guardsSatisfied) ∧
      ((t.shouldPerform).2.shouldPerform).1 = false) := by
  constructor
  · intro h
    simp [Transition.shouldPerform, h]
  · intro h
    refine ⟨?_, ?_, ?_, ?_⟩
    · simp [Transition.shouldPerform, if_neg h]
    · intro hflag; simp [Transition.shouldPerform, if_neg h, hflag]
    · intro hflag
      simp [Transition.shouldPerform, if_neg h, hflag, guardsSatisfied_clear_flag]
    · simp [Transition.shouldPerform, if_neg h]

/-- Witness for C1 at a concrete transition with one subscribed event, a
triggered flag and a failing guard: the call clears the flag and the next
call returns false. -/
theorem C1_shouldPerform_consumes_flag_witness :
    (Transition.mk (some ("final")) [false] 1 true).shouldPerform.2.eventTriggered
        = false ∧
    ((Transition.mk (some ("final")) [false] 1 true).shouldPerform.2.shouldPerform).1
        = false :=
  ⟨((C1_shouldPerform_consumes_flag
      (Transition.mk (some ("final")) [false] 1 true)).2 (by decide)).1,
   ((C1_shouldPerform_consumes_flag
      (Transition.mk (some ("final")) [false] 1 true)).2 (by decide)).2.2.2⟩

lemma scanTransitions_foldl_snd (ts : List Transition) :
    ∀ (a : Option Transition) (l : List Transition),
      (ts.foldl scanStep (a, l)).2 = l ++ ts.map (fun t => (t.shouldPerform).2) := by
  induction ts with
  | nil => intro a l; simp
  | cons t rest ih =>
    intro a l
    rw [List.foldl_cons, ih]
    simp [scanStep]

/-- Evaluation in the Do phase is exhaustive: the transition list after the
`std::for_each` is the pointwise image of one `shouldPerform()` call on
every transition, no matter which (if any) transition qualified. -/
lemma scanTransitions_snd (ts : List Transition) :
    (scanTransitions ts).2 = ts.map (fun t => (t.shouldPerform).2) := by
  rw [scanTransitions, scanTransitions_foldl_snd]
  simp

lemma scanTransitions_foldl_fst (ts : List Transition) :
    ∀ (a : Option Transition) (l : List Transition),
      (ts.foldl scanStep (a, l)).1 =
        (ts.reverse.find? (fun t => (t.shouldPerform).1)).elim a
          (fun u => some ((u.shouldPerform).2)) := by
  induction ts with
  | nil => intro a l; simp
  | cons t rest ih =>
    intro a l
    rw [List.foldl_cons, ih]
    simp only [List.reverse_cons, List.find?_append]
    cases hfind : rest.reverse.find? (fun u => (u.shouldPerform).1) with
    | some u => simp [Option.or]
    | none =>
      by_cases hp : (t.shouldPerform).1
      · simp [scanStep, hp, List.find?, Option.or]
      · simp [scanStep, hp, List.find?, Option.or]

/-- The transition the `std::for_each` selects is the last one in iteration
order whose `shouldPerform()` returned true (the first qualifying one of
the reversed list), in its post-call form. -/
lemma scanTransitions_fst (ts : List Transition) :
    (scanTransitions ts).1 =
      (ts.reverse.find? (fun t => (t.shouldPerform).1)).map
        (fun u => (u.shouldPerform).2) := by
  rw [scanTransitions, scanTransitions_foldl_fst]
  cases ts.reverse.find? (fun t => (t.shouldPerform).1) <;> rfl

/-- C2: in a Do-phase tick, every outgoing transition of the current state
(after the purge) receives exactly one `shouldPerform()` call — no
short-circuit — so the post-tick transition list is the pointwise image of
one call on each; among those that returned true the last one in iteration
order becomes the pending transition and the phase advances to Exit; if
none returned true the phase remains Do and the pending transition is left
as it was. -/
theorem C2_do_phase_exhaustive (c : Chart) (st : StateNode)
    (hph : c.phase = Phase.Do) (hst : c.getState c.current = some st) :
    ((scanTransitions (purgeTransitions c st.transitions)).2 =
       (purgeTransitions c st.transitions).map (fun t => (t.shouldPerform).2)) ∧
    ((scanTransitions (purgeTransitions c st.transitions)).1 =
       ((purgeTransitions c st.transitions).reverse.find?
          (fun t => (t.shouldPerform).1)).map (fun u => (u.shouldPerform).2)) ∧
    ((scanTransitions (purgeTransitions c st.transitions)).1 = none →
       (c.process).1.phase = Phase.Do ∧ (c.process).1.pending = c.pending) ∧
    (∀ t, (scanTransitions (purgeTransitions c st.transitions)).1 = some t →
       (c.process).1.phase = Phase.Exit ∧ (c.process).1.pending = some t) := by
  refine ⟨scanTransitions_snd _, scanTransitions_fst _, ?_, ?_⟩
  · intro hnone
    simp [Chart.process, hph, hst, hnone, Chart.setTransitions]
  · intro t ht
    simp [Chart.process, hph, hst, ht, Chart.setTransitions]

/-- Witness for C2 on `chartC2`: the Do tick selects `tA1` (the last — and
only — qualifying transition) as pending and advances to Exit, while `tA2`
also got its `shouldPerform()` call (its triggered flag is cleared in the
post-tick transition list). -/
theorem C2_do_phase_exhaustive_witness :
    chartC2.phase = Phase.Do ∧
    ((chartC2.process).1.phase = Phase.Exit ∧
      (chartC2.process).1.pending = some tA1) ∧
    (scanTransitions (purgeTransitions chartC2 stA.transitions)).2 =
      [tA1, { tA2 with eventTriggered := false }] :=
  ⟨rfl,
   (C2_do_phase_exhaustive chartC2 stA rfl (by decide)).2.2.2 tA1 (by decide),
   by decide⟩

/-- C3: on the scenario-A chart, three successive `spinOnce()` calls leave
the current state name at `"initial"`, `"s1"`, `"final"` in turn, a fourth
call leaves it at `"final"`, and every call returns with the process phase
equal to Do. -/
theorem C3_scenario_initial_s1_final :
    (chartA.spinOnce).getCurrentStateName = "initial" ∧
    (chartA.spinOnce).phase = Phase.Do ∧
    (chartA.spinOnce.spinOnce).getCurrentStateName = "s1" ∧
    (chartA.spinOnce.spinOnce).phase = Phase.Do ∧
    (chartA.spinOnce.spinOnce.spinOnce).getCurrentStateName = "final" ∧
    (chartA.spinOnce.spinOnce.spinOnce).phase = Phase.Do ∧
    (chartA.spinOnce.spinOnce.spinOnce.spinOnce).getCurrentStateName = "final" ∧
    (chartA.spinOnce.spinOnce.spinOnce.spinOnce).phase = Phase.Do := by
  decide

lemma hasState_iff (m : ChartMap) (n : String) :
    m.hasState n = true ↔ ∃ e ∈ m.entries, e.name = n := by
  simp [ChartMap.hasState, ChartMap.findEntry, List.find?_isSome]

lemma applyOp_keeps (m : ChartMap) (op : ChartOp) (n : String)
    (hn1 : n = "initial" ∨ n = "final") (h : m.hasState n = true) :
    (applyOp m op).hasState n = true := by
  rw [hasState_iff] at h ⊢
  obtain ⟨e, he, hename⟩ := h
  cases op with
  | createState s =>
    simp only [applyOp, createStateM]
    by_cases hs : s = ""
    · simp only [if_pos hs]
      exact ⟨e, he, hename⟩
    · simp only [if_neg hs]
      cases hfind : m.findEntry s with
      | some e2 => exact ⟨e, he, hename⟩
      | none => exact ⟨e, List.mem_append_left _ he, hename⟩
  | addSubchart s =>
    simp only [applyOp, addSubchartM]
    cases hfind : m.findEntry s with
    | some e2 => exact ⟨e, he, hename⟩
    | none => exact ⟨e, List.mem_append_left _ he, hename⟩
  | removeState s =>
    simp only [applyOp, removeStateM]
    by_cases hs : s = "initial" ∨ s = "final"
    · simp only [if_pos hs]
      exact ⟨e, he, hename⟩
    · simp only [if_neg hs]
      refine ⟨e, List.mem_filter.mpr ⟨he, ?_⟩, hename⟩
      have hne : e.name ≠ s := by
        intro hc
        apply hs
        rw [← hc, hename]
        exact hn1
      simpa using hne

lemma two_names_two_entries (l : List SEntry)
    (h1 : ∃ e ∈ l, e.name = "initial") (h2 : ∃ e ∈ l, e.name = "final") :
    2 ≤ l.length := by
  obtain ⟨e1, he1, hn1⟩ := h1
  obtain ⟨e2, he2, hn2⟩ := h2
  match l with
  | [] => exact absurd he1 (List.not_mem_nil e1)
  | [x] =>
    have hx1 : e1 = x := by simpa using he1
    have hx2 : e2 = x := by simpa using he2
    rw [hx1] at hn1
    rw [hx2] at hn2
    rw [hn2] at hn1
    exact absurd hn1 (by decide)
  | x :: y :: rest => simp [List.length]

lemma applyOps_keeps (ops : List ChartOp) :
    (applyOps ops).hasState ("initial") = true ∧
      (applyOps ops).hasState ("final") = true := by
  rw [applyOps]
  induction ops using List.reverseRecOn with
  | nil => exact ⟨by decide, by decide⟩
  | append_singleton ops op ih =>
    rw [List.foldl_append, List.foldl_cons, List.foldl_nil]
    exact ⟨applyOp_keeps _ op _ (Or.inl rfl) ih.1,
           applyOp_keeps _ op _ (Or.inr rfl) ih.2⟩

/-- C4: every chart holds the auto-created `"initial"` and `"final"` states
from `createChart` onward: immediately after creation the state count is at
least 2 and both names are present, this stays true after any sequence of
state-mutating operations, and `removeState` on `"initial"` or `"final"`
leaves the state mapping unchanged. -/
theorem C4_initial_final_permanent (ops : List ChartOp) :
    initChartMap.hasState ("initial") = true ∧
    initChartMap.hasState ("final") = true ∧
    2 ≤ initChartMap.getStateCount ∧
    (applyOps ops).hasState ("initial") = true ∧
    (applyOps ops).hasState ("final") = true ∧
    2 ≤ (applyOps ops).getStateCount ∧
    removeStateM (applyOps ops) ("initial") = applyOps ops ∧
    removeStateM (applyOps ops) ("final") = applyOps ops := by
  obtain ⟨hi, hf⟩ := applyOps_keeps ops
  refine ⟨by decide, by decide, by decide, hi, hf, ?_, ?_, ?_⟩
  · exact two_names_two_entries _ ((hasState_iff _ _).mp hi)
      ((hasState_iff _ _).mp hf)
  · simp [removeStateM]
  · simp [removeStateM]

/-- C5: entering a chart used as a nested state (its `actionEntry`, which
is `reset`) always forces the subchart's current state back to `"initial"`,
its phase to Entry, clears any pending transition, and clears the active
flag of the previously current state — whatever runtime state the subchart
had reached before. -/
theorem C5_subchart_entry_resets (c : Chart) :
    (c.actionEntry).current = "initial" ∧
    (c.actionEntry).phase = Phase.Entry ∧
    (c.actionEntry).pending = none ∧
    ∀ st ∈ (c.actionEntry).states, st.name = c.current → st.active = false := by
  refine ⟨rfl, rfl, rfl, ?_⟩
  intro st hmem hname
  simp only [Chart.actionEntry, Chart.reset, Chart.setActiveFlag,
    List.mem_map] at hmem
  obtain ⟨s, _, heq⟩ := hmem
  by_cases h : s.name = c.current
  · rw [if_pos h] at heq
    rw [← heq]
  · rw [if_neg h] at heq
    rw [← heq] at hname
    exact absurd hname h

/-- Witness for C5 on the mid-run subchart `chartC5`: re-entry resets the
current state to `"initial"` and the node for the previously current state
`"s1"` ends up deactivated. -/
theorem C5_subchart_entry_resets_witness :
    (chartC5.actionEntry).current = "initial" ∧
    (StateNode.mk ("s1") [tS1Final] false).active = false :=
  ⟨(C5_subchart_entry_resets chartC5).1,
   (C5_subchart_entry_resets chartC5).2.2.2 (StateNode.mk ("s1") [tS1Final] false)
     (by decide) (by decide)⟩

/-- C6: the implementation's `isActive()` (which short-circuits for states
whose container is the outermost chart) agrees with the spec's recursive
form — own flag ANDed with the container's `isActive()` all the way up,
with a container-less state active by convention. -/
theorem C6_isActive_recursive :
    ∀ (own : Bool) (ancestors : List Bool),
      isActive own ancestors = isActiveSpec own ancestors := by
  intro own ancestors
  induction ancestors generalizing own with
  | nil => rfl
  | cons c rest ih =>
    cases rest with
    | nil => simp [isActive, isActiveSpec]
    | cons c2 rest2 =>
      simp only [isActive, isActiveSpec, ih c]

/-- C7: `createTransition` raises a configuration error exactly when the
destination's container chart differs from the source's container chart; on
matching containers it appends the new transition to the source's owned
set; in particular a subchart reparented into the source's container by
`addSubchart` is always a valid destination. -/
theorem C7_createTransition_same_chart (src dst : ASt) :
    ((∃ e, createTransition src dst = Except.error e) ↔
      src.container ≠ dst.container) ∧
    (src.container = dst.container →
      createTransition src dst =
        Except.ok
          { src with transitions := src.transitions ++ [newTransition dst.name] }) ∧
    (∀ (sub : ASt) (p : Nat), src.container = some p →
      createTransition src (addSubchartContainer sub p) =
        Except.ok
          { src with transitions := src.transitions ++ [newTransition sub.name] }) := by
  refine ⟨⟨?_, ?_⟩, ?_, ?_⟩
  · rintro ⟨e, he⟩ hcont
    rw [createTransition, if_neg (by simpa using hcont)] at he
    exact Except.noConfusion he
  · intro hne
    exact ⟨dst.name ++ " and " ++ src.name ++ " are not in the same chart",
      by rw [createTransition, if_pos hne]⟩
  · intro hcont
    rw [createTransition, if_neg (by simpa using hcont)]
  · intro sub p hcont
    rw [createTransition,
      if_neg (by simp [addSubchartContainer, hcont])]
    rfl

/-- Witness for C7: the transition from `srcC7` (chart 0) to `dstFar`
(chart 1) fails with a configuration error, while the one to `subC7` after
`addSubchart` into chart 0 succeeds and lands in `srcC7`'s owned set. -/
theorem C7_createTransition_same_chart_witness :
    (∃ e, createTransition srcC7 dstFar = Except.error e) ∧
    createTransition srcC7 (addSubchartContainer subC7 0) =
      Except.ok { srcC7 with transitions := [newTransition ("sub")] } :=
  ⟨(C7_createTransition_same_chart srcC7 dstFar).1.mpr (by decide),
   (C7_createTransition_same_chart srcC7 dstFar).2.2 subC7 0 rfl⟩

/-- Counterexample to C8 as stated: after `addSubchart` registers a nested
chart under the name `"sub"` (object identity 2), the name is present in
the mapping, yet `createState("sub")` does not return the existing state
handle — `dynamic_pointer_cast<State>` on the stored `Chart` yields the
null handle (`none`), not identity 2.  The state count is still
unchanged. -/
theorem C8_counterexample_subchart_name :
    (addSubchartM initChartMap ("sub")).hasState ("sub") = true ∧
    (addSubchartM initChartMap ("sub")).findEntry ("sub") =
      some (SEntry.mk ("sub") 2 false) ∧
    createStateM (addSubchartM initChartMap ("sub")) ("sub") =
      Except.ok (none, addSubchartM initChartMap ("sub")) :=
  ⟨by decide, by decide, rfl⟩

/-- C8 as amended: `createChart("")` and `createState("")` raise the
configuration error (the throw happens before any mutation, so nothing is
modified); `createState(n)` for a name already present leaves the mapping —
hence `getStateCount()` — unchanged and returns the existing state handle
when the entry is a leaf state (the null handle when it is a subchart); for
a fresh non-empty name it registers and returns a new leaf state. -/
theorem C8_createState_idempotent :
    (createChartM ("") = Except.error ("Chart name is empty")) ∧
    (∀ m : ChartMap, createStateM m ("") = Except.error ("State name is empty")) ∧
    (∀ (m : ChartMap) (n : String) (e : SEntry),
      n ≠ "" → m.findEntry n = some e → e.isLeaf = true →
      createStateM m n = Except.ok (some e.id, m)) ∧
    (∀ (m : ChartMap) (n : String) (e : SEntry),
      n ≠ "" → m.findEntry n = some e → e.isLeaf = false →
      createStateM m n = Except.ok (none, m)) ∧
    (∀ (m : ChartMap) (n : String),
      n ≠ "" → m.findEntry n = none →
      createStateM m n =
        Except.ok (some m.nextId,
          ChartMap.mk (m.entries ++ [SEntry.mk n m.nextId true]) (m.nextId + 1)) ∧
      (ChartMap.mk (m.entries ++ [SEntry.mk n m.nextId true])
          (m.nextId + 1)).getStateCount = m.getStateCount + 1 ∧
      (ChartMap.mk (m.entries ++ [SEntry.mk n m.nextId true])
          (m.nextId + 1)).hasState n = true) := by
  refine ⟨rfl, ?_, ?_, ?_, ?_⟩
  · intro m
    rfl
  · intro m n e hn hfind hleaf
    simp [createStateM, hn, hfind, hleaf]
  · intro m n e hn hfind hleaf
    simp [createStateM, hn, hfind, hleaf]
  · intro m n hn hfind
    refine ⟨by simp [createStateM, hn, hfind], by simp [ChartMap.getStateCount], ?_⟩
    rw [hasState_iff]
    exact ⟨SEntry.mk n m.nextId true, by simp, rfl⟩

/-- Witness for C8 (amended): on the freshly created mapping, re-creating
the existing leaf `"initial"` returns its handle (identity 0) with the
mapping untouched, and creating the fresh `"s1"` registers a new leaf with
identity 2. -/
theorem C8_createState_idempotent_witness :
    createStateM initChartMap ("initial") = Except.ok (some 0, initChartMap) ∧
    createStateM initChartMap ("s1") =
      Except.ok (some 2,
        ChartMap.mk (initChartMap.entries ++ [SEntry.mk ("s1") 2 true]) 3) :=
  ⟨C8_createState_idempotent.2.2.1 initChartMap ("initial")
      (SEntry.mk ("initial") 0 true) (by decide) (by decide) rfl,
   (C8_createState_idempotent.2.2.2.2 initChartMap ("s1")
      (by decide) (by decide)).1⟩

/-- Membership in the purged set: a transition survives
`purgeExpiredTransitions` exactly when its destination weak pointer is
alive and the destination is in the container chart's state mapping. -/
lemma mem_purgeTransitions (c : Chart) (l : List Transition) (t : Transition) :
    t ∈ purgeTransitions c l ↔
      t ∈ l ∧ ∃ d, t.dst = some d ∧ c.hasStateName d = true := by
  rw [purgeTransitions, List.mem_filter]
  cases hdst : t.dst with
  | none => simp [hdst]
  | some d => simp [hdst]

lemma hasStateName_removeState (c : Chart) (n d : String)
    (hni : n ≠ "initial") (hnf : n ≠ "final") :
    ((c.removeState n).hasStateName d = true) ↔
      (c.hasStateName d = true ∧ d ≠ n) := by
  rw [Chart.removeState, if_neg (by simp [hni, hnf])]
  simp only [Chart.hasStateName, List.any_eq_true, List.mem_filter]
  constructor
  · rintro ⟨s, ⟨hs, hsn⟩, hname⟩
    refine ⟨⟨s, hs, hname⟩, ?_⟩
    intro hdn
    rw [hdn] at hname
    have h1 : s.name ≠ n := by simpa using hsn
    have h2 : s.name = n := by simpa using hname
    exact h1 h2
  · rintro ⟨⟨s, hs, hname⟩, hdn⟩
    refine ⟨s, ⟨hs, ?_⟩, hname⟩
    have hsd : s.name = d := by simpa using hname
    have hsn : s.name ≠ n := by rw [hsd]; exact hdn
    simpa using hsn

lemma length_filter_not {α : Type} (p : α → Bool) (l : List α) :
    (l.filter (fun x => !(p x))).length = l.length - (l.filter p).length := by
  induction l with
  | nil => rfl
  | cons x xs ih =>
    have hle := List.length_filter_le p xs
    by_cases h : p x = true
    · simp [List.filter_cons, h, ih]
    · simp [List.filter_cons, h, ih]
      omega

/-- C9: `purgeExpiredTransitions` keeps exactly the transitions whose
destination is alive and present in the container chart's state mapping;
consequently, when every transition of a state was valid before
`removeState(n)`, running the purge afterwards keeps exactly the
transitions not targeting `n` and shrinks the count by exactly the number
of transitions that targeted the removed state. -/
theorem C9_purge_exactly_expired (c : Chart) (ts : List Transition) (n : String)
    (hvalid : ∀ t ∈ ts, ∃ d, t.dst = some d ∧ c.hasStateName d = true)
    (hni : n ≠ "initial") (hnf : n ≠ "final") :
    (∀ (c1 : Chart) (l : List Transition) (t : Transition),
      t ∈ purgeTransitions c1 l ↔
        t ∈ l ∧ ∃ d, t.dst = some d ∧ c1.hasStateName d = true) ∧
    purgeTransitions (c.removeState n) ts =
      ts.filter (fun t => !(t.dst = some n : Bool)) ∧
    (purgeTransitions (c.removeState n) ts).length =
      ts.length - (ts.filter (fun t => (t.dst = some n : Bool))).length := by
  have hfilter : purgeTransitions (c.removeState n) ts =
      ts.filter (fun t => !(t.dst = some n : Bool)) := by
    rw [purgeTransitions]
    apply List.filter_congr
    intro t ht
    obtain ⟨d, hdst, hhas⟩ := hvalid t ht
    rw [hdst]
    by_cases hdn : d = n
    · subst hdn
      have hfl : ¬((c.removeState d).hasStateName d = true) := by
        rw [hasStateName_removeState c d d hni hnf]
        rintro ⟨_, hne⟩
        exact hne rfl
      simp only [Bool.not_eq_true] at hfl
      simp [hfl]
    · have htr : (c.removeState n).hasStateName d = true := by
        rw [hasStateName_removeState c n d hni hnf]
        exact ⟨hhas, hdn⟩
      simp [htr, hdn]
  refine ⟨mem_purgeTransitions, hfilter, ?_⟩
  rw [hfilter, length_filter_not]

/-- Witness for C9: removing `"x"` and purging `"s"`'s three transitions
(two of them targeting `"x"`) leaves exactly one transition,
3 − 2 = 1. -/
theorem C9_purge_exactly_expired_witness :
    (purgeTransitions (chartC9.removeState ("x")) tsC9).length =
      tsC9.length - (tsC9.filter (fun t => (t.dst = some ("x") : Bool))).length ∧
    (purgeTransitions (chartC9.removeState ("x")) tsC9).length = 1 ∧
    purgeTransitions (chartC9.removeState ("x")) tsC9 = [tY] :=
  ⟨(C9_purge_exactly_expired chartC9 tsC9 ("x")
      (by
        intro t ht
        simp only [tsC9, List.mem_cons, List.not_mem_nil, or_false] at ht
        rcases ht with rfl | rfl | rfl
        · exact ⟨"x", rfl, by decide⟩
        · exact ⟨"x", rfl, by decide⟩
        · exact ⟨"y", rfl, by decide⟩)
      (by decide) (by decide)).2.2,
   by decide, by decide⟩

lemma get?_last_of_append {α : Type} (pre : List α) (s : α) (hs : s ∉ pre) :
    ∀ j, (pre ++ [s]).get? j = some s → j = pre.length := by
  intro j hj
  rcases lt_or_ge j pre.length with hlt | hge
  · rw [List.get?_append hlt] at hj
    exact absurd (List.get?_mem hj) hs
  · rw [List.get?_append_right hge] at hj
    rcases Nat.lt_or_ge (j - pre.length) 1 with h1 | h1
    · omega
    · rw [List.get?_eq_none.mpr (by simpa using h1)] at hj
      exact Option.noConfusion hj

lemma get?_before_last {α : Type} (pre : List α) (s x : α) (hx : x ≠ s) :
    ∀ i, (pre ++ [s]).get? i = some x → i < pre.length := by
  intro i hi
  rcases lt_or_ge i pre.length with hlt | hge
  · exact hlt
  · rw [List.get?_append_right hge] at hi
    rcases Nat.lt_or_ge (i - pre.length) 1 with h1 | h1
    · have h0 : i - pre.length = 0 := by omega
      rw [h0] at hi
      have hsx : s = x := by simpa using hi
      exact absurd hsx.symm hx
    · rw [List.get?_eq_none.mpr (by simpa using h1)] at hi
      exact Option.noConfusion hi

/-- C10: inside one `process()` tick, the Entry branch runs the entered
state's entry action and every registered state-change callback strictly
before it marks the entered state active, and the Exit branch runs the exit
action and the pending transition's action strictly before it clears the
current state's active flag — positions in the invocation trace are
strictly ordered. -/
theorem C10_actions_precede_active_flip (c : Chart) :
    (c.phase = Phase.Entry →
      ((c.entered).getState (c.entered).current).isSome = true →
      ∀ i j x,
        (c.process).2.get? i = some x →
        (x = TraceEv.entryAction (c.entered).current ∨
          x = TraceEv.stateChange (c.entered).current) →
        (c.process).2.get? j =
          some (TraceEv.setActive (c.entered).current true) →
        i < j) ∧
    (c.phase = Phase.Exit →
      (c.getState c.current).isSome = true →
      ∀ i j x,
        (c.process).2.get? i = some x →
        (x = TraceEv.exitAction c.current ∨ x = TraceEv.transitionAction) →
        (c.process).2.get? j = some (TraceEv.setActive c.current false) →
        i < j) := by
  constructor
  · intro hph hsome i j x hi hx hj
    obtain ⟨st, hst⟩ := Option.isSome_iff_exists.mp hsome
    have htr : (c.process).2 =
        (TraceEv.entryAction (c.entered).current ::
          List.replicate (c.entered).numCallbacks
            (TraceEv.stateChange (c.entered).current)) ++
        [TraceEv.setActive (c.entered).current true] := by
      simp [Chart.process, hph, hst]
    rw [htr] at hi hj
    have hs : TraceEv.setActive (c.entered).current true ∉
        (TraceEv.entryAction (c.entered).current ::
          List.replicate (c.entered).numCallbacks
            (TraceEv.stateChange (c.entered).current)) := by
      simp [List.mem_replicate]
    have hxs : x ≠ TraceEv.setActive (c.entered).current true := by
      rcases hx with rfl | rfl <;> simp
    have hjlen := get?_last_of_append _ _ hs j hj
    have hilt := get?_before_last _ _ x hxs i hi
    omega
  · intro hph hsome i j x hi hx hj
    obtain ⟨st, hst⟩ := Option.isSome_iff_exists.mp hsome
    have htr : (c.process).2 =
        ([TraceEv.exitAction c.current, TraceEv.transitionAction] ++
          [TraceEv.setActive c.current false]) := by
      simp [Chart.process, hph, hst]
    rw [htr] at hi hj
    have hs : TraceEv.setActive c.current false ∉
        [TraceEv.exitAction c.current, TraceEv.transitionAction] := by
      simp
    have hxs : x ≠ TraceEv.setActive c.current false := by
      rcases hx with rfl | rfl <;> simp
    have hjlen := get?_last_of_append _ _ hs j hj
    have hilt := get?_before_last _ _ x hxs i hi
    omega

/-- Witness for C10 on `chartC10` (Entry phase, one registered state-change
callback): the entry action sits at trace position 0 and the callback at
position 1, both strictly before the activation at position 2. -/
theorem C10_actions_precede_active_flip_witness :
    chartC10.phase = Phase.Entry ∧ (0 : Nat) < 2 ∧ (1 : Nat) < 2 :=
  ⟨rfl,
   (C10_actions_precede_active_flip chartC10).1 rfl (by decide) 0 2
     (TraceEv.entryAction ("initial")) (by decide) (Or.inl (by decide))
     (by decide),
   (C10_actions_precede_active_flip chartC10).1 rfl (by decide) 1 2
     (TraceEv.stateChange ("initial")) (by decide) (Or.inr (by decide))
     (by decide)⟩

end Mogi
